import Mathlib

/-!
Verification of the Normative Types (NT) convenience layer: a shallow
embedding of `ntscalarMultiChannel.cpp`, `ntndarray.cpp` and `nttable.h`
(EPICS normativeTypesCPP) together with proofs about the builders, the
compatibility predicates and the wrapping factories.

Only the introspection (type) level of the underlying pvData framework is
modelled: every claim under study concerns field names and field types, never
concrete field values, so a `PVStructure` is represented by its `Structure`
(its introspection interface).  Null `shared_ptr` arguments are modelled with
`Option`; a dereference of a null handle (undefined behaviour in the C++
source) is modelled by propagating `none` as the result of the operation that
performs the dereference.
-/

namespace epics

/-- The pvData `ScalarType` enumeration, in its declared order
(`pvBoolean = 0` … `pvString = 11`). -/
inductive ScalarType where
  | pvBoolean
  | pvByte
  | pvShort
  | pvInt
  | pvLong
  | pvUByte
  | pvUShort
  | pvUInt
  | pvULong
  | pvFloat
  | pvDouble
  | pvString
deriving DecidableEq, Repr

/-- `ScalarTypeFunc::name` from pvData: the printable name of a scalar type. -/
def ScalarType.name : ScalarType → String
  | .pvBoolean => "boolean"
  | .pvByte => "byte"
  | .pvShort => "short"
  | .pvInt => "int"
  | .pvLong => "long"
  | .pvUByte => "ubyte"
  | .pvUShort => "ushort"
  | .pvUInt => "uint"
  | .pvULong => "ulong"
  | .pvFloat => "float"
  | .pvDouble => "double"
  | .pvString => "string"

/-- A pvData introspection `Field`.  A `struct`/`union` carries its ID string
and its ordered named sub-fields; a `structArray` carries the ID and fields of
its element `Structure`; a variant union is, as in pvData, a union with ID
"any" and no members. -/
inductive Field where
  | scalar (t : ScalarType)
  | scalarArray (t : ScalarType)
  | struct (id : String) (fields : List (String × Field))
  | union (id : String) (fields : List (String × Field))
  | structArray (id : String) (fields : List (String × Field))

/-- `fieldCreate->createVariantUnion()`: the variant ("any") union. -/
def variantUnion : Field := Field.union "any" []

/-- A pvData `Structure`: an ID string plus the ordered named fields. -/
structure Structure where
  id : String
  fields : List (String × Field)

/-- Name lookup in an ordered field list (first match wins), the semantics of
`Structure::getField(name)` / `PVStructure::getSubField(name)` for the simple
(dot-free) names used throughout this code. -/
def lookupField (l : List (String × Field)) (name : String) : Option Field :=
  (l.find? (fun p => p.1 == name)).map (fun p => p.2)

/-- `Structure::getField(name)`: the generic lookup, empty when absent. -/
def Structure.getField (s : Structure) (name : String) : Option Field :=
  lookupField s.fields name

/-- `Structure::getField<ScalarArray>(name)`: non-empty exactly when the field
exists and is a scalar array; yields its element type. -/
def Structure.getScalarArrayField (s : Structure) (name : String) : Option ScalarType :=
  match s.getField name with
  | some (Field.scalarArray t) => some t
  | _ => none

/-- `Structure::getField<Scalar>(name)`: non-empty exactly when the field
exists and is a scalar; yields its scalar type. -/
def Structure.getScalarField (s : Structure) (name : String) : Option ScalarType :=
  match s.getField name with
  | some (Field.scalar t) => some t
  | _ => none

/-- A `PVStructure` value container, modelled by its introspection
`Structure` (field values are irrelevant to every property proved here). -/
structure PVStructure where
  s : Structure

/-- `PVStructure::getSubField(name)`: the generic lookup. -/
def PVStructure.getSubField (p : PVStructure) (name : String) : Option Field :=
  lookupField p.s.fields name

/-- `PVStructure::getSubField<PVUnion>(name)`. -/
def PVStructure.getPVUnion (p : PVStructure) (name : String) : Option Field :=
  match p.getSubField name with
  | some (Field.union i fs) => some (Field.union i fs)
  | _ => none

/-- `PVStructure::getSubField<PVString>(name)`. -/
def PVStructure.getPVString (p : PVStructure) (name : String) : Option Field :=
  match p.getSubField name with
  | some (Field.scalar ScalarType.pvString) => some (Field.scalar ScalarType.pvString)
  | _ => none

/-- `PVStructure::getSubField<PVLong>(name)`. -/
def PVStructure.getPVLong (p : PVStructure) (name : String) : Option Field :=
  match p.getSubField name with
  | some (Field.scalar ScalarType.pvLong) => some (Field.scalar ScalarType.pvLong)
  | _ => none

/-- `PVStructure::getSubField<PVInt>(name)`. -/
def PVStructure.getPVInt (p : PVStructure) (name : String) : Option Field :=
  match p.getSubField name with
  | some (Field.scalar ScalarType.pvInt) => some (Field.scalar ScalarType.pvInt)
  | _ => none

/-- `PVStructure::getSubField<PVStructure>(name)`. -/
def PVStructure.getPVStructure (p : PVStructure) (name : String) : Option PVStructure :=
  match p.getSubField name with
  | some (Field.struct i fs) => some ⟨⟨i, fs⟩⟩
  | _ => none

/-- `PVStructure::getSubField<PVStructureArray>(name)`; the result gives
access, via `getStructureArray()->getStructure()`, to the ID and fields of the
element structure. -/
def PVStructure.getPVStructureArray (p : PVStructure) (name : String) :
    Option (String × List (String × Field)) :=
  match p.getSubField name with
  | some (Field.structArray i fs) => some (i, fs)
  | _ => none

/-- `PVStructure::getSubField<PVScalarArray>(name)`: any element type. -/
def PVStructure.getPVScalarArray (p : PVStructure) (name : String) : Option Field :=
  match p.getSubField name with
  | some (Field.scalarArray t) => some (Field.scalarArray t)
  | _ => none

/-- `PVStructure::getSubField<T>(name)` for a concrete scalar-array class
(`PVStringArray`, `PVIntArray`, `PVLongArray`, `PVBooleanArray`): succeeds
only for a scalar array of exactly that element type. -/
def PVStructure.getPVScalarArrayOf (p : PVStructure) (t : ScalarType) (name : String) :
    Option Field :=
  match p.getSubField name with
  | some (Field.scalarArray u) => if u = t then some (Field.scalarArray u) else none
  | _ => none

/-- `PVStructure::getSubField<T>(name)` for a concrete scalar class
(`PVString`, …): succeeds only for a scalar of exactly that type. -/
def PVStructure.getPVScalarOf (p : PVStructure) (t : ScalarType) (name : String) :
    Option Field :=
  match p.getSubField name with
  | some (Field.scalar u) => if u = t then some (Field.scalar u) else none
  | _ => none

/-- `standardField->alarm()` from pvData: the standard alarm sub-schema. -/
def alarmField : Field :=
  Field.struct "alarm_t"
    [("severity", Field.scalar ScalarType.pvInt),
     ("status", Field.scalar ScalarType.pvInt),
     ("message", Field.scalar ScalarType.pvString)]

/-- `standardField->timeStamp()` from pvData: the standard timestamp
sub-schema. -/
def timeStampField : Field :=
  Field.struct "time_t"
    [("secondsPastEpoch", Field.scalar ScalarType.pvLong),
     ("nanoseconds", Field.scalar ScalarType.pvInt),
     ("userTag", Field.scalar ScalarType.pvInt)]

/-- `standardField->display()` from pvData: the standard display sub-schema. -/
def displayField : Field :=
  Field.struct "display_t"
    [("limitLow", Field.scalar ScalarType.pvDouble),
     ("limitHigh", Field.scalar ScalarType.pvDouble),
     ("description", Field.scalar ScalarType.pvString),
     ("format", Field.scalar ScalarType.pvString),
     ("units", Field.scalar ScalarType.pvString)]

namespace NTField

/-- Modelled from the spec: `NTField::isAlarm` (ntfield.cpp is not under
src/; the spec says nested standard sub-schemas are "checked via a shared
predicate from the external collaborator (NTField)").  A field conforms to
the standard alarm shape exactly when it is that standard sub-schema. -/
def isAlarm (f : Field) : Bool :=
  match f with
  | Field.struct i
      [("severity", Field.scalar ScalarType.pvInt),
       ("status", Field.scalar ScalarType.pvInt),
       ("message", Field.scalar ScalarType.pvString)] => i == "alarm_t"
  | _ => false

/-- Modelled from the spec: `NTField::isTimeStamp` (ntfield.cpp is not under
src/) — conformance with the standard timestamp sub-schema. -/
def isTimeStamp (f : Field) : Bool :=
  match f with
  | Field.struct i
      [("secondsPastEpoch", Field.scalar ScalarType.pvLong),
       ("nanoseconds", Field.scalar ScalarType.pvInt),
       ("userTag", Field.scalar ScalarType.pvInt)] => i == "time_t"
  | _ => false

/-- Modelled from the spec: `NTField::isDisplay` (ntfield.cpp is not under
src/) — conformance with the standard display sub-schema. -/
def isDisplay (f : Field) : Bool :=
  match f with
  | Field.struct i
      [("limitLow", Field.scalar ScalarType.pvDouble),
       ("limitHigh", Field.scalar ScalarType.pvDouble),
       ("description", Field.scalar ScalarType.pvString),
       ("format", Field.scalar ScalarType.pvString),
       ("units", Field.scalar ScalarType.pvString)] => i == "display_t"
  | _ => false

end NTField

/-! ## NTScalarMultiChannel (ntscalarMultiChannel.cpp) -/

/-- `NTScalarMultiChannel::URI`. -/
def NTScalarMultiChannel.URI : String := "epics:nt/NTScalarMultiChannel:1.0"

/-- The mutable state of `detail::NTScalarMultiChannelBuilder`: the value
element type, one boolean per optional field, and the parallel lists of extra
field names and extra fields. -/
structure NTScalarMultiChannelBuilder where
  valueType : ScalarType
  descriptor : Bool
  alarm : Bool
  timeStamp : Bool
  severity : Bool
  status : Bool
  message : Bool
  secondsPastEpoch : Bool
  nanoseconds : Bool
  userTag : Bool
  isConnected : Bool
  extraFieldNames : List String
  extraFields : List Field

namespace NTScalarMultiChannelBuilder

/-- `NTScalarMultiChannelBuilder::reset()`: the default state.  The source
keeps `isConnected = true` by default ("TODO When client code updated, don't
include isConnected by default"). -/
def resetState : NTScalarMultiChannelBuilder :=
  { valueType := ScalarType.pvDouble
  , descriptor := false
  , alarm := false
  , timeStamp := false
  , severity := false
  , status := false
  , message := false
  , secondsPastEpoch := false
  , nanoseconds := false
  , userTag := false
  , isConnected := true
  , extraFieldNames := []
  , extraFields := [] }

/-- `NTScalarMultiChannelBuilder::value(scalarType)`. -/
def value (b : NTScalarMultiChannelBuilder) (t : ScalarType) : NTScalarMultiChannelBuilder :=
  { b with valueType := t }

/-- `NTScalarMultiChannelBuilder::addDescriptor()`. -/
def addDescriptor (b : NTScalarMultiChannelBuilder) : NTScalarMultiChannelBuilder :=
  { b with descriptor := true }

/-- `NTScalarMultiChannelBuilder::addAlarm()`. -/
def addAlarm (b : NTScalarMultiChannelBuilder) : NTScalarMultiChannelBuilder :=
  { b with alarm := true }

/-- `NTScalarMultiChannelBuilder::addTimeStamp()`. -/
def addTimeStamp (b : NTScalarMultiChannelBuilder) : NTScalarMultiChannelBuilder :=
  { b with timeStamp := true }

/-- `NTScalarMultiChannelBuilder::addSeverity()`. -/
def addSeverity (b : NTScalarMultiChannelBuilder) : NTScalarMultiChannelBuilder :=
  { b with severity := true }

/-- `NTScalarMultiChannelBuilder::addStatus()`. -/
def addStatus (b : NTScalarMultiChannelBuilder) : NTScalarMultiChannelBuilder :=
  { b with status := true }

/-- `NTScalarMultiChannelBuilder::addMessage()`. -/
def addMessage (b : NTScalarMultiChannelBuilder) : NTScalarMultiChannelBuilder :=
  { b with message := true }

/-- `NTScalarMultiChannelBuilder::addSecondsPastEpoch()`. -/
def addSecondsPastEpoch (b : NTScalarMultiChannelBuilder) : NTScalarMultiChannelBuilder :=
  { b with secondsPastEpoch := true }

/-- `NTScalarMultiChannelBuilder::addNanoseconds()`. -/
def addNanoseconds (b : NTScalarMultiChannelBuilder) : NTScalarMultiChannelBuilder :=
  { b with nanoseconds := true }

/-- `NTScalarMultiChannelBuilder::addUserTag()`. -/
def addUserTag (b : NTScalarMultiChannelBuilder) : NTScalarMultiChannelBuilder :=
  { b with userTag := true }

/-- `NTScalarMultiChannelBuilder::addIsConnected()`. -/
def addIsConnected (b : NTScalarMultiChannelBuilder) : NTScalarMultiChannelBuilder :=
  { b with isConnected := true }

/-- `NTScalarMultiChannelBuilder::add(name, field)`: append an extra field. -/
def add (b : NTScalarMultiChannelBuilder) (name : String) (field : Field) :
    NTScalarMultiChannelBuilder :=
  { b with extraFields := b.extraFields ++ [field]
         , extraFieldNames := b.extraFieldNames ++ [name] }

/-- `NTScalarMultiChannelBuilder::createStructure()`.  The source fills the
parallel `names`/`fields` arrays in a fixed order — `value`, `channelName`,
each toggled optional field, then the extra fields — tags the structure with
the `NTScalarMultiChannel` URI, and calls `reset()` before returning; the
mutation of `this` is modelled by returning the post-call builder state
alongside the structure. -/
def createStructure (b : NTScalarMultiChannelBuilder) :
    Structure × NTScalarMultiChannelBuilder :=
  (⟨NTScalarMultiChannel.URI,
    [("value", Field.scalarArray b.valueType),
     ("channelName", Field.scalarArray ScalarType.pvString)]
    ++ (if b.descriptor then [("descriptor", Field.scalar ScalarType.pvString)] else [])
    ++ (if b.alarm then [("alarm", alarmField)] else [])
    ++ (if b.timeStamp then [("timeStamp", timeStampField)] else [])
    ++ (if b.severity then [("severity", Field.scalarArray ScalarType.pvInt)] else [])
    ++ (if b.status then [("status", Field.scalarArray ScalarType.pvInt)] else [])
    ++ (if b.message then [("message", Field.scalarArray ScalarType.pvString)] else [])
    ++ (if b.secondsPastEpoch then [("secondsPastEpoch", Field.scalarArray ScalarType.pvLong)] else [])
    ++ (if b.nanoseconds then [("nanoseconds", Field.scalarArray ScalarType.pvInt)] else [])
    ++ (if b.userTag then [("userTag", Field.scalarArray ScalarType.pvInt)] else [])
    ++ (if b.isConnected then [("isConnected", Field.scalarArray ScalarType.pvBoolean)] else [])
    ++ b.extraFieldNames.zip b.extraFields⟩,
   resetState)

/-- `NTScalarMultiChannelBuilder::createPVStructure()`: allocates a value
conforming to the schema just built (state is reset through
`createStructure`). -/
def createPVStructure (b : NTScalarMultiChannelBuilder) :
    PVStructure × NTScalarMultiChannelBuilder :=
  (⟨(b.createStructure).1⟩, (b.createStructure).2)

end NTScalarMultiChannelBuilder

/-- `NTScalarMultiChannel::createBuilder()`: the constructor sets
`valueType(pvDouble)` and calls `reset()`, which is exactly the reset
state. -/
def NTScalarMultiChannel.createBuilder : NTScalarMultiChannelBuilder :=
  NTScalarMultiChannelBuilder.resetState

/-- The `NTScalarMultiChannel` wrapper object: the wrapped instance plus the
sub-field handles the constructor resolves once (absent optional fields
resolve to an empty handle). -/
structure NTScalarMultiChannel where
  pvNTScalarMultiChannel : PVStructure
  pvTimeStamp : Option PVStructure
  pvAlarm : Option PVStructure
  pvValue : Option Field
  pvChannelName : Option Field
  pvIsConnected : Option Field
  pvSeverity : Option Field
  pvStatus : Option Field
  pvMessage : Option Field
  pvSecondsPastEpoch : Option Field
  pvNanoseconds : Option Field
  pvUserTag : Option Field
  pvDescriptor : Option Field

namespace NTScalarMultiChannel

/-- The `NTScalarMultiChannel(PVStructurePtr)` constructor: caches the
typed sub-field handles by name lookup against the wrapped instance. -/
def ofPV (p : PVStructure) : NTScalarMultiChannel :=
  { pvNTScalarMultiChannel := p
  , pvTimeStamp := p.getPVStructure "timeStamp"
  , pvAlarm := p.getPVStructure "alarm"
  , pvValue := p.getPVScalarArray "value"
  , pvChannelName := p.getPVScalarArrayOf ScalarType.pvString "channelName"
  , pvIsConnected := p.getPVScalarArrayOf ScalarType.pvBoolean "isConnected"
  , pvSeverity := p.getPVScalarArrayOf ScalarType.pvInt "severity"
  , pvStatus := p.getPVScalarArrayOf ScalarType.pvInt "status"
  , pvMessage := p.getPVScalarArrayOf ScalarType.pvString "message"
  , pvSecondsPastEpoch := p.getPVScalarArrayOf ScalarType.pvLong "secondsPastEpoch"
  , pvNanoseconds := p.getPVScalarArrayOf ScalarType.pvInt "nanoseconds"
  , pvUserTag := p.getPVScalarArrayOf ScalarType.pvInt "userTag"
  , pvDescriptor := p.getPVScalarOf ScalarType.pvString "descriptor" }

/-- One optional-field block of `NTScalarMultiChannel::isCompatible`: the
untyped `getField(name)`; when the field is present, the typed re-lookup plus
element/scalar type comparison, folded into `check`, must succeed (`check f`
is false both when the typed lookup would be empty and when the type
comparison fails, exactly as in the source). -/
def optCheck (s : Structure) (name : String) (check : Field → Bool) : Bool :=
  match s.getField name with
  | some f => check f
  | none => true

/-- The typed test done by the `severity`/`status`/`message`/
`secondsPastEpoch`/`nanoseconds`/`userTag` blocks of
`NTScalarMultiChannel::isCompatible`: `getField<ScalarArray>` succeeds and
`getElementType()` equals the required type. -/
def isScalarArrayOf (t : ScalarType) (f : Field) : Bool :=
  match f with
  | Field.scalarArray u => decide (u = t)
  | _ => false

/-- The typed test done by the `descriptor` block of
`NTScalarMultiChannel::isCompatible`: `getField<Scalar>` succeeds and
`getScalarType()` equals the required type. -/
def isScalarOf (t : ScalarType) (f : Field) : Bool :=
  match f with
  | Field.scalar u => decide (u = t)
  | _ => false

/-- The body of `NTScalarMultiChannel::isCompatible(StructureConstPtr)`
after its null guard: the sequence of early-return checks of the source,
written as a short-circuit conjunction. -/
def isCompatibleCore (s : Structure) : Bool :=
  match s.getScalarArrayField "value" with
  | none => false
  | some _ =>
    match s.getScalarArrayField "channelName" with
    | none => false
    | some t =>
      if t ≠ ScalarType.pvString then false
      else
        optCheck s "severity" (isScalarArrayOf ScalarType.pvInt) &&
        optCheck s "status" (isScalarArrayOf ScalarType.pvInt) &&
        optCheck s "message" (isScalarArrayOf ScalarType.pvString) &&
        optCheck s "secondsPastEpoch" (isScalarArrayOf ScalarType.pvLong) &&
        optCheck s "nanoseconds" (isScalarArrayOf ScalarType.pvInt) &&
        optCheck s "userTag" (isScalarArrayOf ScalarType.pvInt) &&
        optCheck s "descriptor" (isScalarOf ScalarType.pvString) &&
        optCheck s "alarm" NTField.isAlarm &&
        optCheck s "timeStamp" NTField.isTimeStamp

/-- `NTScalarMultiChannel::isCompatible(StructureConstPtr)`: a null pointer
(`!structure.get()`) is rejected first, then the structural checks run. -/
def isCompatible (os : Option Structure) : Bool :=
  match os with
  | none => false
  | some s => isCompatibleCore s

/-- `NTScalarMultiChannel::isCompatible(PVStructurePtr)`: a null pointer is
rejected first, then the `Structure` overload is applied to
`pvStructure->getStructure()`. -/
def isCompatiblePV (op : Option PVStructure) : Bool :=
  match op with
  | none => false
  | some p => isCompatible (some p.s)

/-- `NTScalarMultiChannel::wrapUnsafe(structure)`: constructs the wrapper
with no compatibility check at all. -/
def wrapUnsafe (p : PVStructure) : NTScalarMultiChannel := ofPV p

/-- `NTScalarMultiChannel::wrap(structure)`: empty when `isCompatible` is
false, otherwise `wrapUnsafe` (a null argument fails `isCompatible` and so
yields the empty result). -/
def wrap (op : Option PVStructure) : Option NTScalarMultiChannel :=
  if isCompatiblePV op then op.map wrapUnsafe else none

end NTScalarMultiChannel

/-- `NTScalarMultiChannelBuilder::create()`: wraps (without a check, as in
the source's direct constructor call) the freshly allocated instance. -/
def NTScalarMultiChannelBuilder.create (b : NTScalarMultiChannelBuilder) :
    NTScalarMultiChannel × NTScalarMultiChannelBuilder :=
  (NTScalarMultiChannel.ofPV (b.createPVStructure).1, (b.createPVStructure).2)

/-! ## NTNDArray (ntndarray.cpp) -/

/-- `NTNDArray::URI`. -/
def NTNDArray.URI : String := "uri:ev4:nt/2014/pwd:NTNDArray"

/-- The constant `ntAttrStr` of ntndarray.cpp. -/
def ntAttrStr : String := "uri:ev4:nt/2014/pwd:NTAttribute"

/-- The scalar types enumerated by the `for (int i = pvBoolean; i < pvString; ++i)`
loop of `NTNDArrayBuilder::createStructure` — every scalar type strictly
before `pvString` in the declared order. -/
def scalarTypesBelowString : List ScalarType :=
  [ScalarType.pvBoolean, ScalarType.pvByte, ScalarType.pvShort, ScalarType.pvInt,
   ScalarType.pvLong, ScalarType.pvUByte, ScalarType.pvUShort, ScalarType.pvUInt,
   ScalarType.pvULong, ScalarType.pvFloat, ScalarType.pvDouble]

/-- The `value` union built by `NTNDArrayBuilder::createStructure`: one
`<name>Value` scalar-array member per scalar type below `pvString`, with the
default union ID. -/
def ndValueUnion : Field :=
  Field.union "union"
    (scalarTypesBelowString.map (fun st => (st.name ++ "Value", Field.scalarArray st)))

/-- The `codec_t` structure of `NTNDArrayBuilder::createStructure`. -/
def codecStruc : Field :=
  Field.struct "codec_t"
    [("name", Field.scalar ScalarType.pvString),
     ("parameters", variantUnion)]

/-- The fields of the `dimension_t` structure of
`NTNDArrayBuilder::createStructure`. -/
def dimensionStrucFields : List (String × Field) :=
  [("size", Field.scalar ScalarType.pvInt),
   ("offset", Field.scalar ScalarType.pvInt),
   ("fullSize", Field.scalar ScalarType.pvInt),
   ("binning", Field.scalar ScalarType.pvInt),
   ("reverse", Field.scalar ScalarType.pvBoolean)]

/-- The fields of the NTAttribute structure of
`NTNDArrayBuilder::createStructure` (its ID is `ntAttrStr`). -/
def attributeStrucFields : List (String × Field) :=
  [("name", Field.scalar ScalarType.pvString),
   ("value", variantUnion),
   ("descriptor", Field.scalar ScalarType.pvString),
   ("sourceType", Field.scalar ScalarType.pvInt),
   ("source", Field.scalar ScalarType.pvString)]

/-- The mutable state of `detail::NTNDArrayBuilder`. -/
structure NTNDArrayBuilder where
  descriptor : Bool
  timeStamp : Bool
  alarm : Bool
  display : Bool
  extraFieldNames : List String
  extraFields : List Field

namespace NTNDArrayBuilder

/-- `NTNDArrayBuilder::reset()`: all flags off, no extra fields.  In the
source it is called only by the constructor. -/
def resetState : NTNDArrayBuilder :=
  { descriptor := false
  , timeStamp := false
  , alarm := false
  , display := false
  , extraFieldNames := []
  , extraFields := [] }

/-- `NTNDArrayBuilder::addDescriptor()`. -/
def addDescriptor (b : NTNDArrayBuilder) : NTNDArrayBuilder :=
  { b with descriptor := true }

/-- `NTNDArrayBuilder::addAlarm()`. -/
def addAlarm (b : NTNDArrayBuilder) : NTNDArrayBuilder :=
  { b with alarm := true }

/-- `NTNDArrayBuilder::addTimeStamp()`. -/
def addTimeStamp (b : NTNDArrayBuilder) : NTNDArrayBuilder :=
  { b with timeStamp := true }

/-- `NTNDArrayBuilder::addDisplay()`. -/
def addDisplay (b : NTNDArrayBuilder) : NTNDArrayBuilder :=
  { b with display := true }

/-- `NTNDArrayBuilder::add(name, field)`: append an extra field. -/
def add (b : NTNDArrayBuilder) (name : String) (field : Field) : NTNDArrayBuilder :=
  { b with extraFields := b.extraFields ++ [field]
         , extraFieldNames := b.extraFieldNames ++ [name] }

/-- `NTNDArrayBuilder::createStructure()`.  The fixed leading fields, then
the toggled optional fields, then the extra fields.  Unlike
`NTScalarMultiChannelBuilder::createStructure`, the source returns
`fb->createStructure()` directly and never calls `reset()`, so the builder
state after the call is the state before it. -/
def createStructure (b : NTNDArrayBuilder) : Structure × NTNDArrayBuilder :=
  (⟨NTNDArray.URI,
    [("value", ndValueUnion),
     ("codec", codecStruc),
     ("compressedSize", Field.scalar ScalarType.pvLong),
     ("uncompressedSize", Field.scalar ScalarType.pvLong),
     ("dimension", Field.structArray "dimension_t" dimensionStrucFields),
     ("uniqueId", Field.scalar ScalarType.pvInt),
     ("dataTimeStamp", timeStampField),
     ("attribute", Field.structArray ntAttrStr attributeStrucFields)]
    ++ (if b.descriptor then [("descriptor", Field.scalar ScalarType.pvString)] else [])
    ++ (if b.timeStamp then [("timeStamp", timeStampField)] else [])
    ++ (if b.alarm then [("alarm", alarmField)] else [])
    ++ (if b.display then [("display", displayField)] else [])
    ++ b.extraFieldNames.zip b.extraFields⟩,
   b)

/-- `NTNDArrayBuilder::createPVStructure()` (also does not reset). -/
def createPVStructure (b : NTNDArrayBuilder) : PVStructure × NTNDArrayBuilder :=
  (⟨(b.createStructure).1⟩, (b.createStructure).2)

end NTNDArrayBuilder

/-- The `NTNDArray` wrapper object: its constructor only stores the wrapped
instance. -/
structure NTNDArray where
  pvNTNDArray : PVStructure

namespace NTNDArray

/-- `NTNDArray::createBuilder()`: the constructor calls `reset()`. -/
def createBuilder : NTNDArrayBuilder := NTNDArrayBuilder.resetState

/-- `NTNDArray::is_a(structure)`: exact comparison of the ID with the URI. -/
def is_a (s : Structure) : Bool := s.id == NTNDArray.URI

/-- The source's `NTNDArray::narrow_unsafe(structure)` (renamed here):
constructs the wrapper with no check. -/
def narrowUnsafe (p : PVStructure) : NTNDArray := ⟨p⟩

/-- `NTNDArray::narrow(structure)`: empty for a null argument or when
`is_a` fails on the instance's schema, otherwise `narrowUnsafe`. -/
def narrow (op : Option PVStructure) : Option NTNDArray :=
  match op with
  | none => none
  | some p => if is_a p.s then some (narrowUnsafe p) else none

/-- One optional-field step of `NTNDArray::is_compatible`:
`pvField && !pred(pvField->getField())` — true exactly when the field is
present but fails the predicate (which makes the source return false). -/
def presentAndFails (p : PVStructure) (name : String) (pred : Field → Bool) : Bool :=
  match p.getSubField name with
  | some f => !(pred f)
  | none => false

/-- `NTNDArray::is_compatible(PVStructurePtr)`, transliterated check by
check.  The source performs no null test on its argument and none on the
results of the `dimension` and `attribute` lookups before dereferencing
them; each such dereference of an empty handle is undefined behaviour,
modelled as the result `none` (`some b` models a normal return of `b`). -/
def is_compatible (opv : Option PVStructure) : Option Bool :=
  match opv with
  | none => none
  | some p =>
    if (p.getPVUnion "value").isNone then some false
    else if (p.getSubField "descriptor").isSome && (p.getPVString "descriptor").isNone then
      some false
    else if presentAndFails p "alarm" NTField.isAlarm then some false
    else if presentAndFails p "timeStamp" NTField.isTimeStamp then some false
    else if presentAndFails p "display" NTField.isDisplay then some false
    else if (p.getPVLong "compressedSize").isNone then some false
    else if (p.getPVLong "uncompressedSize").isNone then some false
    else
      match p.getPVStructure "codec" with
      | none => some false
      | some pvCodec =>
        if (pvCodec.getPVString "name").isNone then some false
        else if (pvCodec.getPVUnion "parameters").isNone then some false
        else
          match p.getPVStructureArray "dimension" with
          | none => none
          | some (dimId, _) =>
            if dimId ≠ "dimension_t" then some false
            else if (p.getPVInt "uniqueId").isNone then some false
            else if presentAndFails p "dataTimeStamp" NTField.isTimeStamp then some false
            else
              match p.getPVStructureArray "attribute" with
              | none => none
              | some (attrId, _) =>
                -- source line 194: `if(!ID.compare("ntAttrStr")!=0) return false;`
                -- returns false exactly when the candidate ID equals the
                -- quoted literal "ntAttrStr", not the URI held by the
                -- variable ntAttrStr
                if attrId = "ntAttrStr" then some false else some true

end NTNDArray

/-- `NTNDArrayBuilder::create()`. -/
def NTNDArrayBuilder.create (b : NTNDArrayBuilder) : NTNDArray × NTNDArrayBuilder :=
  (⟨(b.createPVStructure).1⟩, (b.createPVStructure).2)

/-! ## NTTable (nttable.h) -/

/-- The concrete runtime class of a `PVField`, the discriminator used by
`std::tr1::dynamic_pointer_cast<PVT>` when `PVT` is a concrete value class
(`PVDoubleArray`, `PVIntArray`, `PVString`, …). -/
inductive PVClass where
  | scalarClass (t : ScalarType)
  | scalarArrayClass (t : ScalarType)
  | structureClass
  | unionClass
  | structureArrayClass
deriving DecidableEq

/-- The runtime class of a field's value object. -/
def PVClass.of : Field → PVClass
  | Field.scalar t => PVClass.scalarClass t
  | Field.scalarArray t => PVClass.scalarArrayClass t
  | Field.struct _ _ => PVClass.structureClass
  | Field.union _ _ => PVClass.unionClass
  | Field.structArray _ _ => PVClass.structureArrayClass

/-- The `NTTable` wrapper (nttable.h): the wrapped instance and the cached
handle of its `value` sub-structure, whose members are the columns. -/
structure NTTable where
  pvNTTable : PVStructure
  pvValue : PVStructure

namespace NTTable

/-- Modelled from the spec: the untyped `NTTable::getColumn(columnName)`
(nttable.cpp is not under src/; the spec describes "lookup by name returning
the generic field", empty on absence) — the generic sub-field of the cached
`value` structure with the column's name. -/
def getColumn (t : NTTable) (columnName : String) : Option Field :=
  t.pvValue.getSubField columnName

/-- The template `NTTable::getColumn<PVT>(columnName)` of nttable.h: the
untyped lookup, then — only when it produced a field — a checked downcast
`dynamic_pointer_cast<PVT>`, which yields an empty handle unless the field's
runtime class is `PVT`. -/
def getColumnTyped (cls : PVClass) (t : NTTable) (columnName : String) : Option Field :=
  match t.getColumn columnName with
  | some pvField => if PVClass.of pvField = cls then some pvField else none
  | none => none

end NTTable

/-! ## Spec-side characterisations

These definitions follow the wording of the specification (not the source),
to be compared with the transliterated code above. -/

namespace NTScalarMultiChannel

/-- Spec wording: the mandatory fields — `value` present as a scalar array
(of any element type), `channelName` present as a string-element scalar
array. -/
def specMandatoryOk (s : Structure) : Prop :=
  (∃ t, s.getField "value" = some (Field.scalarArray t)) ∧
  s.getField "channelName" = some (Field.scalarArray ScalarType.pvString)

/-- Spec wording: when the named optional field is present it matches its
required type; when absent there is no requirement. -/
def optionalMatches (s : Structure) (name : String) (required : Field → Prop) : Prop :=
  ∀ f, s.getField name = some f → required f

/-- Spec wording of NTScalarMultiChannel compatibility: all mandatory fields
match, and every present optional field (`severity`, `status`, `message`,
`secondsPastEpoch`, `nanoseconds`, `userTag`, `descriptor`, `alarm`,
`timeStamp`) matches its required type exactly. -/
def specCompatible (s : Structure) : Prop :=
  specMandatoryOk s ∧
  optionalMatches s "severity" (fun f => f = Field.scalarArray ScalarType.pvInt) ∧
  optionalMatches s "status" (fun f => f = Field.scalarArray ScalarType.pvInt) ∧
  optionalMatches s "message" (fun f => f = Field.scalarArray ScalarType.pvString) ∧
  optionalMatches s "secondsPastEpoch" (fun f => f = Field.scalarArray ScalarType.pvLong) ∧
  optionalMatches s "nanoseconds" (fun f => f = Field.scalarArray ScalarType.pvInt) ∧
  optionalMatches s "userTag" (fun f => f = Field.scalarArray ScalarType.pvInt) ∧
  optionalMatches s "descriptor" (fun f => f = Field.scalar ScalarType.pvString) ∧
  optionalMatches s "alarm" (fun f => NTField.isAlarm f = true) ∧
  optionalMatches s "timeStamp" (fun f => NTField.isTimeStamp f = true)

end NTScalarMultiChannel

namespace NTScalarMultiChannelBuilder

/-- Spec wording of the schema field order: "each toggled optional field in
the fixed declared order" — the declared order of the optional fields of
NTScalarMultiChannel, keeping exactly the toggled ones. -/
def specOptionalFields (b : NTScalarMultiChannelBuilder) : List (String × Field) :=
  ([(b.descriptor, ("descriptor", Field.scalar ScalarType.pvString)),
    (b.alarm, ("alarm", alarmField)),
    (b.timeStamp, ("timeStamp", timeStampField)),
    (b.severity, ("severity", Field.scalarArray ScalarType.pvInt)),
    (b.status, ("status", Field.scalarArray ScalarType.pvInt)),
    (b.message, ("message", Field.scalarArray ScalarType.pvString)),
    (b.secondsPastEpoch, ("secondsPastEpoch", Field.scalarArray ScalarType.pvLong)),
    (b.nanoseconds, ("nanoseconds", Field.scalarArray ScalarType.pvInt)),
    (b.userTag, ("userTag", Field.scalarArray ScalarType.pvInt)),
    (b.isConnected, ("isConnected", Field.scalarArray ScalarType.pvBoolean))
   ]).filterMap (fun p => if p.1 then some p.2 else none)

end NTScalarMultiChannelBuilder

/-! ## Helper lemmas -/

theorem lookupField_append (l₁ l₂ : List (String × Field)) (name : String) :
    lookupField (l₁ ++ l₂) name =
      match lookupField l₁ name with
      | some f => some f
      | none => lookupField l₂ name := by
  induction l₁ with
  | nil => simp [lookupField]
  | cons hd tl ih =>
    by_cases h : (hd.1 == name) = true
    · simp [lookupField, List.find?, h]
    · simp only [Bool.not_eq_true] at h
      simp only [lookupField, List.cons_append, List.find?, h] at ih ⊢
      exact ih

theorem lookupField_toggle_ne (b : Bool) (nm : String) (x : Field) (name : String)
    (h : (nm == name) = false) :
    lookupField (if b then [(nm, x)] else []) name = none := by
  cases b <;> simp [lookupField, List.find?, h]

theorem lookupField_toggle_eq (b : Bool) (nm : String) (x : Field) :
    lookupField (if b then [(nm, x)] else []) nm = if b then some x else none := by
  cases b <;> simp [lookupField, List.find?]

theorem lookupField_nil (name : String) : lookupField [] name = none := rfl

theorem lookupField_cons_ne (nm : String) (x : Field) (l : List (String × Field))
    (name : String) (h : (nm == name) = false) :
    lookupField ((nm, x) :: l) name = lookupField l name := by
  simp [lookupField, List.find?, h]

theorem lookupField_cons_eq (nm : String) (x : Field) (l : List (String × Field)) :
    lookupField ((nm, x) :: l) nm = some x := by
  simp [lookupField, List.find?]

theorem lookupField_append_or (l₁ l₂ : List (String × Field)) (name : String) :
    lookupField (l₁ ++ l₂) name = (lookupField l₁ name).or (lookupField l₂ name) := by
  rw [lookupField_append]
  cases lookupField l₁ name <;> simp [Option.or]

theorem lookupField_cons (nm : String) (x : Field) (l : List (String × Field))
    (name : String) :
    lookupField ((nm, x) :: l) name =
      if nm == name then some x else lookupField l name := by
  by_cases h : (nm == name) = true
  · simp [lookupField, List.find?, h]
  · simp only [Bool.not_eq_true] at h
    simp [lookupField, List.find?, h]

theorem lookupField_toggle (b : Bool) (nm : String) (x : Field) (name : String) :
    lookupField (if b then [(nm, x)] else []) name =
      if (nm == name) && b then some x else none := by
  cases b <;> cases h : (nm == name) <;> simp [lookupField, List.find?, h]

theorem filterMap_toggle_cons (b : Bool) (x : String × Field)
    (rest : List (Bool × (String × Field))) :
    List.filterMap (fun p => if p.1 then some p.2 else none) ((b, x) :: rest) =
      (if b then [x] else []) ++
        List.filterMap (fun p => if p.1 then some p.2 else none) rest := by
  cases b <;> simp

theorem optCheck_eq_true_iff (s : Structure) (name : String) (check : Field → Bool) :
    NTScalarMultiChannel.optCheck s name check = true ↔
      ∀ f, s.getField name = some f → check f = true := by
  unfold NTScalarMultiChannel.optCheck
  cases h : s.getField name <;> simp

theorem isScalarArrayOf_eq_true_iff (t : ScalarType) (f : Field) :
    NTScalarMultiChannel.isScalarArrayOf t f = true ↔ f = Field.scalarArray t := by
  cases f <;> simp [NTScalarMultiChannel.isScalarArrayOf]

theorem isScalarOf_eq_true_iff (t : ScalarType) (f : Field) :
    NTScalarMultiChannel.isScalarOf t f = true ↔ f = Field.scalar t := by
  cases f <;> simp [NTScalarMultiChannel.isScalarOf]

theorem getScalarArrayField_eq_some_iff (s : Structure) (name : String) (t : ScalarType) :
    s.getScalarArrayField name = some t ↔ s.getField name = some (Field.scalarArray t) := by
  unfold Structure.getScalarArrayField
  cases h : s.getField name with
  | none => simp
  | some f => cases f <;> simp

theorem optionalMatches_iff_optCheck (s : Structure) (name : String)
    (check : Field → Bool) (required : Field → Prop)
    (hcr : ∀ f, check f = true ↔ required f) :
    NTScalarMultiChannel.optionalMatches s name required ↔
      NTScalarMultiChannel.optCheck s name check = true := by
  rw [optCheck_eq_true_iff]
  unfold NTScalarMultiChannel.optionalMatches
  constructor <;> intro h f hf
  · exact (hcr f).2 (h f hf)
  · exact (hcr f).1 (h f hf)

/-- The central refinement fact shared by several claims: the transliterated
compatibility check agrees with the specification's characterisation. -/
theorem isCompatibleCore_iff_spec (s : Structure) :
    NTScalarMultiChannel.isCompatibleCore s = true ↔
      NTScalarMultiChannel.specCompatible s := by
  unfold NTScalarMultiChannel.specCompatible
  rw [optionalMatches_iff_optCheck s "severity" _ _
        (isScalarArrayOf_eq_true_iff ScalarType.pvInt),
      optionalMatches_iff_optCheck s "status" _ _
        (isScalarArrayOf_eq_true_iff ScalarType.pvInt),
      optionalMatches_iff_optCheck s "message" _ _
        (isScalarArrayOf_eq_true_iff ScalarType.pvString),
      optionalMatches_iff_optCheck s "secondsPastEpoch" _ _
        (isScalarArrayOf_eq_true_iff ScalarType.pvLong),
      optionalMatches_iff_optCheck s "nanoseconds" _ _
        (isScalarArrayOf_eq_true_iff ScalarType.pvInt),
      optionalMatches_iff_optCheck s "userTag" _ _
        (isScalarArrayOf_eq_true_iff ScalarType.pvInt),
      optionalMatches_iff_optCheck s "descriptor" _ _
        (isScalarOf_eq_true_iff ScalarType.pvString),
      optionalMatches_iff_optCheck s "alarm" NTField.isAlarm _ (fun f => Iff.rfl),
      optionalMatches_iff_optCheck s "timeStamp" NTField.isTimeStamp _ (fun f => Iff.rfl)]
  unfold NTScalarMultiChannel.isCompatibleCore NTScalarMultiChannel.specMandatoryOk
  cases hv : s.getScalarArrayField "value" with
  | none =>
    simp only [Bool.false_eq_true, false_iff]
    rintro ⟨⟨⟨tv, htv⟩, -⟩, -⟩
    have hcontra := (getScalarArrayField_eq_some_iff s "value" tv).2 htv
    rw [hv] at hcontra
    exact Option.noConfusion hcontra
  | some tv =>
    cases hc : s.getScalarArrayField "channelName" with
    | none =>
      simp only [Bool.false_eq_true, false_iff]
      rintro ⟨⟨-, hcn⟩, -⟩
      have hcontra := (getScalarArrayField_eq_some_iff s "channelName" ScalarType.pvString).2 hcn
      rw [hc] at hcontra
      exact Option.noConfusion hcontra
    | some tc =>
      by_cases ht : tc = ScalarType.pvString
      · subst ht
        have hval : s.getField "value" = some (Field.scalarArray tv) :=
          (getScalarArrayField_eq_some_iff s "value" tv).1 hv
        have hcn : s.getField "channelName" = some (Field.scalarArray ScalarType.pvString) :=
          (getScalarArrayField_eq_some_iff s "channelName" ScalarType.pvString).1 hc
        simp only [ne_eq, not_true_eq_false, Bool.false_eq_true, if_false, Bool.and_eq_true]
        constructor
        · rintro ⟨⟨⟨⟨⟨⟨⟨⟨h1, h2⟩, h3⟩, h4⟩, h5⟩, h6⟩, h7⟩, h8⟩, h9⟩
          exact ⟨⟨⟨tv, hval⟩, hcn⟩, h1, h2, h3, h4, h5, h6, h7, h8, h9⟩
        · rintro ⟨-, h1, h2, h3, h4, h5, h6, h7, h8, h9⟩
          exact ⟨⟨⟨⟨⟨⟨⟨⟨h1, h2⟩, h3⟩, h4⟩, h5⟩, h6⟩, h7⟩, h8⟩, h9⟩
      · simp only [ne_eq, ht, not_false_eq_true, if_true, Bool.false_eq_true, false_iff]
        rintro ⟨⟨-, hcn⟩, -⟩
        have hcontra :=
          (getScalarArrayField_eq_some_iff s "channelName" ScalarType.pvString).2 hcn
        rw [hc] at hcontra
        exact ht (Option.some.inj hcontra)

/-- The schema the NTScalarMultiChannel builder emits from a pure toggle
configuration (no extra fields). -/
def msToggleBuilt (vt : ScalarType) (d a ts sv st m se na ut ic : Bool) : Structure :=
  (NTScalarMultiChannelBuilder.createStructure
    ⟨vt, d, a, ts, sv, st, m, se, na, ut, ic, [], []⟩).1

/-- Evaluation of every lookup that the compatibility check performs on a
toggle-built schema. -/
theorem msToggleBuilt_lookups (vt : ScalarType) (d a ts sv st m se na ut ic : Bool) :
    (msToggleBuilt vt d a ts sv st m se na ut ic).getField "value" =
        some (Field.scalarArray vt) ∧
    (msToggleBuilt vt d a ts sv st m se na ut ic).getField "channelName" =
        some (Field.scalarArray ScalarType.pvString) ∧
    (msToggleBuilt vt d a ts sv st m se na ut ic).getField "descriptor" =
        (if d then some (Field.scalar ScalarType.pvString) else none) ∧
    (msToggleBuilt vt d a ts sv st m se na ut ic).getField "alarm" =
        (if a then some alarmField else none) ∧
    (msToggleBuilt vt d a ts sv st m se na ut ic).getField "timeStamp" =
        (if ts then some timeStampField else none) ∧
    (msToggleBuilt vt d a ts sv st m se na ut ic).getField "severity" =
        (if sv then some (Field.scalarArray ScalarType.pvInt) else none) ∧
    (msToggleBuilt vt d a ts sv st m se na ut ic).getField "status" =
        (if st then some (Field.scalarArray ScalarType.pvInt) else none) ∧
    (msToggleBuilt vt d a ts sv st m se na ut ic).getField "message" =
        (if m then some (Field.scalarArray ScalarType.pvString) else none) ∧
    (msToggleBuilt vt d a ts sv st m se na ut ic).getField "secondsPastEpoch" =
        (if se then some (Field.scalarArray ScalarType.pvLong) else none) ∧
    (msToggleBuilt vt d a ts sv st m se na ut ic).getField "nanoseconds" =
        (if na then some (Field.scalarArray ScalarType.pvInt) else none) ∧
    (msToggleBuilt vt d a ts sv st m se na ut ic).getField "userTag" =
        (if ut then some (Field.scalarArray ScalarType.pvInt) else none) := by
  refine ⟨?_, ?_, ?_, ?_, ?_, ?_, ?_, ?_, ?_, ?_, ?_⟩ <;>
    simp [msToggleBuilt, NTScalarMultiChannelBuilder.createStructure, Structure.getField,
      lookupField_append_or, lookupField_cons, lookupField_toggle]

/-- Every toggle-built schema satisfies the spec characterisation of
NTScalarMultiChannel compatibility. -/
theorem msBuilt_specCompatible (vt : ScalarType) (d a ts sv st m se na ut ic : Bool) :
    NTScalarMultiChannel.specCompatible (msToggleBuilt vt d a ts sv st m se na ut ic) := by
  obtain ⟨hval, hcn, hdesc, halm, hts, hsev, hst, hmsg, hsec, hnan, hut⟩ :=
    msToggleBuilt_lookups vt d a ts sv st m se na ut ic
  refine ⟨⟨⟨vt, hval⟩, hcn⟩, ?_, ?_, ?_, ?_, ?_, ?_, ?_, ?_, ?_⟩
  · intro f hf
    rw [hsev] at hf
    cases sv <;> simp_all
  · intro f hf
    rw [hst] at hf
    cases st <;> simp_all
  · intro f hf
    rw [hmsg] at hf
    cases m <;> simp_all
  · intro f hf
    rw [hsec] at hf
    cases se <;> simp_all
  · intro f hf
    rw [hnan] at hf
    cases na <;> simp_all
  · intro f hf
    rw [hut] at hf
    cases ut <;> simp_all
  · intro f hf
    rw [hdesc] at hf
    cases d <;> simp_all
  · intro f hf
    rw [halm] at hf
    cases a with
    | false => simp at hf
    | true =>
      simp only [if_true] at hf
      obtain rfl := Option.some.inj hf
      rfl
  · intro f hf
    rw [hts] at hf
    cases ts with
    | false => simp at hf
    | true =>
      simp only [if_true] at hf
      obtain rfl := Option.some.inj hf
      rfl

/-! ## Claim theorems -/

/-- Claim C1: for every structure S, `NTScalarMultiChannel::isCompatible(S)`
returns false whenever a mandatory field (value as a scalar array,
channelName as a string-element scalar array) is missing or has the wrong
scalar/array element type, and returns true whenever all mandatory fields
match and every present optional field (severity, status, message,
secondsPastEpoch, nanoseconds, userTag, descriptor, alarm, timeStamp) also
matches its required type exactly, regardless of which optional fields are
present. -/
theorem claim_C1_isCompatible_characterisation (s : Structure) :
    NTScalarMultiChannel.isCompatible (some s) = true ↔
      NTScalarMultiChannel.specCompatible s :=
  isCompatibleCore_iff_spec s

/-- Claim C2, counterexample: `NTNDArray::is_compatible` does not return
false on a null argument — it performs no null check and dereferences the
null pointer at its first `getSubField` call (modelled as `none`). -/
theorem claim_C2_counterexample : NTNDArray.is_compatible none ≠ some false := by
  intro h
  exact Option.noConfusion h

/-- Claim C2, amended: `NTScalarMultiChannel::isCompatible` returns false on
a null argument in both its `Structure` and `PVStructure` overloads;
`NTNDArray::is_compatible`, however, has no null guard and dereferences a
null argument (undefined behaviour) instead of returning false. -/
theorem claim_C2_null_handling :
    NTScalarMultiChannel.isCompatible none = false ∧
    NTScalarMultiChannel.isCompatiblePV none = false ∧
    NTNDArray.is_compatible none = none :=
  ⟨rfl, rfl, rfl⟩

/-- Claim C3, counterexample: configure an `NTNDArrayBuilder` with
`addDescriptor()` and build once; because `createStructure` never calls
`reset()`, a second immediate `createStructure()` still emits the descriptor
field, so its schema differs from the default-shape schema. -/
theorem claim_C3_counterexample :
    (((NTNDArrayBuilder.resetState.addDescriptor).createStructure).2.createStructure).1.fields ≠
      ((NTNDArrayBuilder.resetState).createStructure).1.fields := by
  intro h
  have hlen := congrArg List.length h
  simp [NTNDArrayBuilder.createStructure, NTNDArrayBuilder.addDescriptor,
    NTNDArrayBuilder.resetState] at hlen

/-- Claim C3, amended: after `NTScalarMultiChannelBuilder`'s
`createStructure`/`createPVStructure`/`create`, the builder state is back to
its default, so a second immediate `createStructure` yields the default-shape
schema; `NTNDArrayBuilder`'s build calls, however, never call `reset()` (only
its constructor does), so the builder state — flags, value configuration and
extra fields — survives the call and a second immediate build repeats the
previous configuration. -/
theorem claim_C3_builder_state_after_build :
    (∀ b : NTScalarMultiChannelBuilder,
        (b.createStructure).2 = NTScalarMultiChannelBuilder.resetState ∧
        (b.createPVStructure).2 = NTScalarMultiChannelBuilder.resetState ∧
        (b.create).2 = NTScalarMultiChannelBuilder.resetState ∧
        ((b.createStructure).2.createStructure).1 =
          ((NTScalarMultiChannelBuilder.resetState).createStructure).1) ∧
    (∀ b : NTNDArrayBuilder,
        (b.createStructure).2 = b ∧
        (b.createPVStructure).2 = b ∧
        (b.create).2 = b) :=
  ⟨fun _ => ⟨rfl, rfl, rfl, rfl⟩, fun _ => ⟨rfl, rfl, rfl⟩⟩

/-- An instance whose schema carries the NTNDArray URI as its ID but has no
fields at all: `NTNDArray::is_a` accepts it while `NTNDArray::is_compatible`
rejects it. -/
def ndIdOnlyInstance : PVStructure := ⟨⟨NTNDArray.URI, []⟩⟩

/-- Claim C4, counterexample: `NTNDArray::narrow` does not validate the
compatibility predicate — on an instance whose ID matches the URI but which
lacks every mandatory field, `narrow` yields a wrapper even though
`is_compatible` is false. -/
theorem claim_C4_counterexample :
    NTNDArray.narrow (some ndIdOnlyInstance) ≠ none ∧
    NTNDArray.is_compatible (some ndIdOnlyInstance) = some false := by
  constructor
  · intro h
    have hred : NTNDArray.narrow (some ndIdOnlyInstance) =
        some (NTNDArray.narrowUnsafe ndIdOnlyInstance) := rfl
    rw [hred] at h
    exact Option.noConfusion h
  · rfl

/-- Claim C4, amended: `NTScalarMultiChannel::wrap(s)` is empty exactly when
`isCompatible(s)` is false and `wrapUnsafe` performs no check and always
yields a wrapper around its argument; `NTNDArray::narrow`, however,
validates only `is_a` (exact URI match of the ID), not `is_compatible` — it
is empty exactly when its argument is null or the ID differs from the
NTNDArray URI — and `narrowUnsafe` always yields a wrapper around its
argument. -/
theorem claim_C4_wrap_factories :
    (∀ op : Option PVStructure,
        NTScalarMultiChannel.wrap op = none ↔
          NTScalarMultiChannel.isCompatiblePV op = false) ∧
    (∀ p : PVStructure,
        (NTScalarMultiChannel.wrapUnsafe p).pvNTScalarMultiChannel = p) ∧
    NTNDArray.narrow none = none ∧
    (∀ p : PVStructure,
        NTNDArray.narrow (some p) = none ↔ NTNDArray.is_a p.s = false) ∧
    (∀ p : PVStructure, (NTNDArray.narrowUnsafe p).pvNTNDArray = p) := by
  refine ⟨fun op => ?_, fun _ => rfl, rfl, fun p => ?_, fun _ => rfl⟩
  · cases op with
    | none => simp [NTScalarMultiChannel.wrap, NTScalarMultiChannel.isCompatiblePV]
    | some p =>
      unfold NTScalarMultiChannel.wrap
      cases h : NTScalarMultiChannel.isCompatiblePV (some p) <;> simp [h]
  · unfold NTNDArray.narrow
    cases h : NTNDArray.is_a p.s <;> simp [h]

/-- Claim C5: for every combination of optional-field toggles (and any value
element type) configured on the builder with no extra fields, wrapping the
instance the builder produces always succeeds — `wrap` of the built
`PVStructure` is never empty, and equivalently `isCompatible` holds of every
structure `createStructure()` emits. -/
theorem claim_C5_builder_roundtrip (vt : ScalarType) (d a ts sv st m se na ut ic : Bool) :
    NTScalarMultiChannel.wrap
        (some (NTScalarMultiChannelBuilder.createPVStructure
          ⟨vt, d, a, ts, sv, st, m, se, na, ut, ic, [], []⟩).1) ≠ none ∧
    NTScalarMultiChannel.isCompatible
        (some (NTScalarMultiChannelBuilder.createStructure
          ⟨vt, d, a, ts, sv, st, m, se, na, ut, ic, [], []⟩).1) = true := by
  have hcore : NTScalarMultiChannel.isCompatibleCore
      (msToggleBuilt vt d a ts sv st m se na ut ic) = true :=
    (isCompatibleCore_iff_spec _).2 (msBuilt_specCompatible vt d a ts sv st m se na ut ic)
  refine ⟨?_, hcore⟩
  have hpv : NTScalarMultiChannel.isCompatiblePV
      (some (NTScalarMultiChannelBuilder.createPVStructure
        ⟨vt, d, a, ts, sv, st, m, se, na, ut, ic, [], []⟩).1) = true := hcore
  simp [NTScalarMultiChannel.wrap, hpv]

/-- Claim C6: for every configuration of NTScalarMultiChannelBuilder, the
schema `createStructure()` produces lists its fields in the fixed order —
`value` (scalar array of the configured element type), `channelName` (string
array), each toggled optional field in the declared order (descriptor,
alarm, timeStamp, severity, status, message, secondsPastEpoch, nanoseconds,
userTag, isConnected), then the extra fields in insertion order — and the
schema is tagged with the NTScalarMultiChannel URI. -/
theorem claim_C6_field_order (b : NTScalarMultiChannelBuilder) :
    (b.createStructure).1.id = NTScalarMultiChannel.URI ∧
    (b.createStructure).1.fields =
      [("value", Field.scalarArray b.valueType),
       ("channelName", Field.scalarArray ScalarType.pvString)]
      ++ b.specOptionalFields
      ++ b.extraFieldNames.zip b.extraFields := by
  refine ⟨rfl, ?_⟩
  unfold NTScalarMultiChannelBuilder.createStructure
    NTScalarMultiChannelBuilder.specOptionalFields
  simp [filterMap_toggle_cons, List.append_assoc]

/-- A family of NTNDArray instances, identical to the default-built schema
except that the `attribute` structure-array's element ID is the given
string; every check of `is_compatible` before the final attribute-ID
comparison passes on it. -/
def ndAttrIdInstance (attrId : String) : PVStructure :=
  ⟨⟨NTNDArray.URI,
    [("value", ndValueUnion),
     ("codec", codecStruc),
     ("compressedSize", Field.scalar ScalarType.pvLong),
     ("uncompressedSize", Field.scalar ScalarType.pvLong),
     ("dimension", Field.structArray "dimension_t" dimensionStrucFields),
     ("uniqueId", Field.scalar ScalarType.pvInt),
     ("dataTimeStamp", timeStampField),
     ("attribute", Field.structArray attrId attributeStrucFields)]⟩⟩

/-- Claim C7, counterexample: the attribute-ID comparison of
`NTNDArray::is_compatible` can cause the predicate to return false — it does
so exactly on the ID equal to the quoted variable name `"ntAttrStr"`, while
the same instance with any other ID (here the real NTAttribute URI held by
the variable `ntAttrStr`) passes every check. -/
theorem claim_C7_counterexample :
    NTNDArray.is_compatible (some (ndAttrIdInstance "ntAttrStr")) = some false ∧
    NTNDArray.is_compatible (some (ndAttrIdInstance ntAttrStr)) = some true :=
  ⟨rfl, rfl⟩

/-- Claim C7, amended: the string comparison validating the attribute
structure-array's type identifier compares the candidate's ID against the
nine-character literal `"ntAttrStr"` (the variable's name in quotes, not the
NTAttribute URI it holds), and its double negation inverts the test — so for
every input reaching that step the check accepts any identifier, including
any mismatched real one, except the literal `"ntAttrStr"` itself, on which
it rejects. -/
theorem claim_C7_attr_id_comparison (attrId : String) :
    NTNDArray.is_compatible (some (ndAttrIdInstance attrId)) =
      if attrId = "ntAttrStr" then some false else some true := rfl

/-- A structure carrying everything `NTNDArray::is_compatible` checks before
the `dimension` lookup, but no `dimension` field. -/
def ndMissingDimension : PVStructure :=
  ⟨⟨NTNDArray.URI,
    [("value", ndValueUnion),
     ("codec", codecStruc),
     ("compressedSize", Field.scalar ScalarType.pvLong),
     ("uncompressedSize", Field.scalar ScalarType.pvLong)]⟩⟩

/-- A structure carrying everything `NTNDArray::is_compatible` checks before
the `attribute` lookup, but no `attribute` field. -/
def ndMissingAttribute : PVStructure :=
  ⟨⟨NTNDArray.URI,
    [("value", ndValueUnion),
     ("codec", codecStruc),
     ("compressedSize", Field.scalar ScalarType.pvLong),
     ("uncompressedSize", Field.scalar ScalarType.pvLong),
     ("dimension", Field.structArray "dimension_t" dimensionStrucFields),
     ("uniqueId", Field.scalar ScalarType.pvInt)]⟩⟩

/-- Claim C8: `NTNDArray::is_compatible` is not total on non-null inputs —
for every structure that passes the checks before the `dimension` step but
lacks a `dimension` sub-field of structure-array type, and likewise for
every structure that passes the checks before the `attribute` step but lacks
an `attribute` sub-field of structure-array type, the `getSubField` lookup
yields a null handle which the predicate immediately dereferences (modelled
`none`) instead of returning false. -/
theorem claim_C8_null_dereference :
    (∀ p c : PVStructure,
      (p.getPVUnion "value").isNone = false →
      ((p.getSubField "descriptor").isSome && (p.getPVString "descriptor").isNone) = false →
      NTNDArray.presentAndFails p "alarm" NTField.isAlarm = false →
      NTNDArray.presentAndFails p "timeStamp" NTField.isTimeStamp = false →
      NTNDArray.presentAndFails p "display" NTField.isDisplay = false →
      (p.getPVLong "compressedSize").isNone = false →
      (p.getPVLong "uncompressedSize").isNone = false →
      p.getPVStructure "codec" = some c →
      (c.getPVString "name").isNone = false →
      (c.getPVUnion "parameters").isNone = false →
      p.getPVStructureArray "dimension" = none →
      NTNDArray.is_compatible (some p) = none) ∧
    (∀ (p c : PVStructure) (dimFs : List (String × Field)),
      (p.getPVUnion "value").isNone = false →
      ((p.getSubField "descriptor").isSome && (p.getPVString "descriptor").isNone) = false →
      NTNDArray.presentAndFails p "alarm" NTField.isAlarm = false →
      NTNDArray.presentAndFails p "timeStamp" NTField.isTimeStamp = false →
      NTNDArray.presentAndFails p "display" NTField.isDisplay = false →
      (p.getPVLong "compressedSize").isNone = false →
      (p.getPVLong "uncompressedSize").isNone = false →
      p.getPVStructure "codec" = some c →
      (c.getPVString "name").isNone = false →
      (c.getPVUnion "parameters").isNone = false →
      p.getPVStructureArray "dimension" = some ("dimension_t", dimFs) →
      (p.getPVInt "uniqueId").isNone = false →
      NTNDArray.presentAndFails p "dataTimeStamp" NTField.isTimeStamp = false →
      p.getPVStructureArray "attribute" = none →
      NTNDArray.is_compatible (some p) = none) := by
  constructor
  · intro p c h1 h2 h3 h4 h5 h6 h7 h8 h9 h10 h11
    unfold NTNDArray.is_compatible
    simp [h1, h2, h3, h4, h5, h6, h7, h8, h9, h10, h11]
  · intro p c dimFs h1 h2 h3 h4 h5 h6 h7 h8 h9 h10 h11 h12 h13 h14
    unfold NTNDArray.is_compatible
    simp [h1, h2, h3, h4, h5, h6, h7, h8, h9, h10, h11, h12, h13, h14]

/-- Claim C8 witness: concrete structures with the earlier mandatory fields
but no `dimension` (respectively no `attribute`) field make
`NTNDArray::is_compatible` dereference a null lookup. -/
theorem claim_C8_null_dereference_witness :
    NTNDArray.is_compatible (some ndMissingDimension) = none ∧
    NTNDArray.is_compatible (some ndMissingAttribute) = none := by
  constructor
  · exact claim_C8_null_dereference.1 ndMissingDimension
      ⟨⟨"codec_t", [("name", Field.scalar ScalarType.pvString), ("parameters", variantUnion)]⟩⟩
      rfl rfl rfl rfl rfl rfl rfl rfl rfl rfl rfl
  · exact claim_C8_null_dereference.2 ndMissingAttribute
      ⟨⟨"codec_t", [("name", Field.scalar ScalarType.pvString), ("parameters", variantUnion)]⟩⟩
      dimensionStrucFields
      rfl rfl rfl rfl rfl rfl rfl rfl rfl rfl rfl rfl rfl rfl

/-- Claim C9: the NTScalarMultiChannel builder's default (reset) state sets
`isConnected` to included while every other optional-field flag defaults to
excluded, the value element type defaults to `pvDouble`, a freshly created
builder is exactly the reset state, and a reset builder's unused
`createStructure()` emits a schema containing an `isConnected`
boolean-array field. -/
theorem claim_C9_default_state :
    NTScalarMultiChannelBuilder.resetState.isConnected = true ∧
    NTScalarMultiChannelBuilder.resetState.valueType = ScalarType.pvDouble ∧
    NTScalarMultiChannelBuilder.resetState.descriptor = false ∧
    NTScalarMultiChannelBuilder.resetState.alarm = false ∧
    NTScalarMultiChannelBuilder.resetState.timeStamp = false ∧
    NTScalarMultiChannelBuilder.resetState.severity = false ∧
    NTScalarMultiChannelBuilder.resetState.status = false ∧
    NTScalarMultiChannelBuilder.resetState.message = false ∧
    NTScalarMultiChannelBuilder.resetState.secondsPastEpoch = false ∧
    NTScalarMultiChannelBuilder.resetState.nanoseconds = false ∧
    NTScalarMultiChannelBuilder.resetState.userTag = false ∧
    NTScalarMultiChannelBuilder.resetState.extraFieldNames = [] ∧
    NTScalarMultiChannelBuilder.resetState.extraFields = [] ∧
    NTScalarMultiChannel.createBuilder = NTScalarMultiChannelBuilder.resetState ∧
    ("isConnected", Field.scalarArray ScalarType.pvBoolean) ∈
      ((NTScalarMultiChannelBuilder.resetState).createStructure).1.fields := by
  refine ⟨rfl, rfl, rfl, rfl, rfl, rfl, rfl, rfl, rfl, rfl, rfl, rfl, rfl, rfl, ?_⟩
  simp [NTScalarMultiChannelBuilder.createStructure, NTScalarMultiChannelBuilder.resetState]

/-- Claim C10: the typed column accessor `NTTable::getColumn<PVT>` never
fails — when the untyped `getColumn` yields no field it returns an empty
handle, and when the yielded field's runtime class is not `PVT` the checked
downcast also yields an empty handle rather than an error. -/
theorem claim_C10_typed_column (t : NTTable) (cls : PVClass) (columnName : String) :
    (t.getColumn columnName = none → NTTable.getColumnTyped cls t columnName = none) ∧
    (∀ f, t.getColumn columnName = some f → PVClass.of f ≠ cls →
      NTTable.getColumnTyped cls t columnName = none) := by
  constructor
  · intro h
    unfold NTTable.getColumnTyped
    rw [h]
  · intro f hf hne
    unfold NTTable.getColumnTyped
    rw [hf]
    simp [hne]

/-- A concrete table whose `value` structure has one double-array column. -/
def tableFixture : NTTable :=
  ⟨⟨⟨"epics:nt/NTTable:1.0", []⟩⟩,
   ⟨⟨"structure", [("a", Field.scalarArray ScalarType.pvDouble)]⟩⟩⟩

/-- Claim C10 witness: on a concrete table, the typed accessor yields an
empty handle both for a missing column and for a present column of a
mismatched runtime class. -/
theorem claim_C10_typed_column_witness :
    NTTable.getColumnTyped (PVClass.scalarArrayClass ScalarType.pvInt) tableFixture "missing"
      = none ∧
    NTTable.getColumnTyped (PVClass.scalarArrayClass ScalarType.pvInt) tableFixture "a"
      = none := by
  constructor
  · exact (claim_C10_typed_column tableFixture
      (PVClass.scalarArrayClass ScalarType.pvInt) "missing").1 rfl
  · exact (claim_C10_typed_column tableFixture
      (PVClass.scalarArrayClass ScalarType.pvInt) "a").2
      (Field.scalarArray ScalarType.pvDouble) rfl (by decide)

end epics
